import Mathlib

/-!
Verification of the item CRUD service (FastAPI + MongoDB).

The embedding models, from the source:
  * `schema/item.py`:     `ItemBase` and `Item` (pydantic models);
  * `crud/item.py`:       the repository functions over a Mongo collection;
  * `api/api_v1/endpoints/item.py`: the five HTTP handlers.

The Mongo collection is modelled as a list of documents in natural
(insertion) order.  A stored document carries `_id` plus the three item
fields; we identify it with the `Item` whose `id` field holds the `_id`
(exactly the bijection `Item(id=doc[_id], **doc)` used by the source).
The driver primitives (`find_one`, `insert_one`, `update_one` with `$set`,
`delete_many`) are modelled from their documented MongoDB semantics.
A raised database/driver exception is modelled by `Except DBError`:
neither the repository nor the handlers contain any `try/except`, so an
error in the awaited database call propagates out of the operation
unchanged.

The `price: float` field is a JSON number on which the service performs
no arithmetic — it is only stored, compared for equality by the store and
returned — so it is modelled by an exact numeric type (`Rat`).
-/

namespace ItemApp

/-- Model of `schema/item.py` `ItemBase`: the client-supplied fields. -/
structure ItemBase where
  name : String
  description : String
  price : Rat
deriving DecidableEq

/-- Model of `schema/item.py` `Item`: the item fields plus the string `id`. -/
structure Item extends ItemBase where
  id : String
deriving DecidableEq

/-- A stored document is `_id` plus the item fields; we identify it with
the `Item` whose `id` field holds the `_id`. -/
abbrev Document := Item

/-- The single Mongo collection, as its list of documents in natural
(insertion) order. -/
abbrev Collection := List Document

/-- The exceptions the database driver can raise in the modelled
operations. -/
inductive DBError where
  /-- Error of `insert_one` with an `_id` already present (unique `_id` index). -/
  | duplicateKey : DBError
  /-- Error of `Cursor.skip` with a negative argument raises `ValueError`. -/
  | negativeSkip : DBError
  /-- Error of `to_list` with a negative `length` raises `ValueError`. -/
  | negativeLimit : DBError
  /-- The database is unreachable / the awaited call fails. -/
  | connectionFailure : DBError
deriving DecidableEq

/-- An HTTP response produced by a handler: an item body, a list body, or
a bare `Response(status_code=...)`. -/
inductive HResp where
  | item (status : Nat) (body : Item) : HResp
  | list (status : Nat) (body : List Item) : HResp
  | empty (status : Nat) : HResp
deriving DecidableEq

/-! ## Driver primitives (modelled MongoDB semantics) -/

/-- Model of `collection.find_one({_id: id})`: the first document in natural order
whose `_id` equals `id`, if any. -/
def find_one (id : String) (coll : Collection) : Option Document :=
  coll.find? (fun d => d.id == id)

/-- Model of `collection.insert_one(document)`: appends the document and returns
its `_id` as `inserted_id`; raises `DuplicateKeyError` if a document with
the same `_id` already exists (the mandatory unique index on `_id`). -/
def insert_one (doc : Document) (coll : Collection) :
    Except DBError (String × Collection) :=
  if coll.any (fun d => d.id == doc.id) then
    .error .duplicateKey
  else
    .ok (doc.id, coll ++ [doc])

/-- Effect of `$set` of the three item fields on a stored document: `name`,
`description` and `price` are replaced, `_id` is not part of the update
document and is left untouched. -/
def applySet (item : ItemBase) (d : Document) : Document :=
  ⟨⟨item.name, item.description, item.price⟩, d.id⟩

/-- Model of `collection.update_one({_id: id}, {$set: fields})`: applies `$set` to
the first document whose `_id` equals `id` (if any) and reports
`modified_count`, which is `1` exactly when the matched document actually
changed and `0` otherwise (no match, or all set fields already equal). -/
def update_one (id : String) (item : ItemBase) :
    Collection → Nat × Collection
  | [] => (0, [])
  | d :: ds =>
    if d.id == id then
      let d' := applySet item d
      (if d' = d then 0 else 1, d' :: ds)
    else
      let r := update_one id item ds
      (r.1, d :: r.2)

/-- Model of `collection.delete_many({_id: id})`: removes every document whose
`_id` equals `id` and reports the number removed as `deleted_count`. -/
def delete_many (id : String) (coll : Collection) : Nat × Collection :=
  (coll.countP (fun d => d.id == id), coll.filter (fun d => !(d.id == id)))

/-- Model of `find().skip(skip)` followed by `to_list(length=limit)`: the documents in
natural order after dropping the first `skip`, truncated to at most
`limit`.  `Cursor.skip` raises `ValueError` on a negative `skip` and
`to_list` raises `ValueError` on a negative `length`. -/
def find_skip_to_list (skip limit : Int) (coll : Collection) :
    Except DBError (List Document) :=
  if skip < 0 then .error .negativeSkip
  else if limit < 0 then .error .negativeLimit
  else .ok ((coll.drop skip.toNat).take limit.toNat)

/-! ## Repository layer (`crud/item.py`)

Each function receives the collection state; `r` stands for the 128
random bits drawn by `uuid4()`. -/

/-- Lowercase hex digit for `n < 16`. -/
def hexChar (n : Nat) : Char :=
  if n < 10 then Char.ofNat (48 + n) else Char.ofNat (87 + n)

/-- The `w` lowercase hex digits of `n`, zero-padded, most significant
first. -/
def toHexChars : Nat → Nat → List Char
  | _, 0 => []
  | n, w + 1 => toHexChars (n / 16) w ++ [hexChar (n % 16)]

/-- The character sequence of `str(uuid.uuid4())`: 32 lowercase hex
digits in groups of 8-4-4-4-12 separated by hyphens. -/
def uuid4Chars (n : Nat) : List Char :=
  toHexChars (n / 2 ^ 96) 8 ++ '-' ::
  (toHexChars (n / 2 ^ 80 % 2 ^ 16) 4 ++ '-' ::
  (toHexChars (n / 2 ^ 64 % 2 ^ 16) 4 ++ '-' ::
  (toHexChars (n / 2 ^ 48 % 2 ^ 16) 4 ++ '-' ::
  toHexChars (n % 2 ^ 48) 12)))

/-- Model of `str(uuid.uuid4())` where `r` is the randomness drawn: the 128 bits
rendered in the canonical 8-4-4-4-12 format.  (`uuid4` additionally pins
the version and variant nibbles inside the bits; that does not affect the
format, which is all the service relies on.) -/
def uuid4String (r : Nat) : String :=
  String.mk (uuid4Chars (r % 2 ^ 128))

namespace Crud

/-- Model of `crud/item.py` `create_item`: builds the document from the item
fields, assigns `_id = str(uuid4())`, inserts it and returns
`Item(id=inserted_id, **document)`. -/
def create_item (item : ItemBase) (r : Nat) (coll : Collection) :
    Except DBError (Item × Collection) :=
  let newId := uuid4String r
  match insert_one ⟨item, newId⟩ coll with
  | .error e => .error e
  | .ok (insertedId, coll') => .ok (⟨item, insertedId⟩, coll')

/-- Model of `crud/item.py` `get_all_items`: `find().skip(skip).to_list(limit)`,
each document mapped through `Item(**result, id=result[_id])`. -/
def get_all_items (skip limit : Int) (coll : Collection) :
    Except DBError (List Item) :=
  find_skip_to_list skip limit coll

/-- Model of `crud/item.py` `read_item`: `find_one({_id: id})`, `None` if absent,
otherwise `Item(id=item[_id], **item)`. -/
def read_item (id : String) (coll : Collection) : Option Item :=
  find_one id coll

/-- Model of `crud/item.py` `update_item`: `update_one({_id: id}, {$set: vars(item)})`;
returns `None` when `modified_count == 0`, otherwise
`Item(id=id, **document)` built from the request, not re-read from the
store. -/
def update_item (id : String) (item : ItemBase) (coll : Collection) :
    Option Item × Collection :=
  let r := update_one id item coll
  if r.1 = 0 then (none, r.2) else (some ⟨item, id⟩, r.2)

/-- Model of `crud/item.py` `delete_item`: `delete_many({_id: id})`, returning
`deleted_count`. -/
def delete_item (id : String) (coll : Collection) : Nat × Collection :=
  delete_many id coll

end Crud

/-! ## Handler layer (`api/api_v1/endpoints/item.py`)

Each handler takes the database state as `Except DBError Collection`:
`.error e` models the awaited database call raising `e`.  No handler and
no repository function contains a `try/except`, so the exception
propagates out of the operation (the framework boundary turns it into a
generic 500); `.ok` carries the collection the calls operate on.
Handlers that write return the resulting collection alongside the
response. -/

namespace Handler

/-- Handler for `GET /items/{item_id}`: `read_item`; bare 404 if `None`, else the
item (route `status_code=200`). -/
def get_item (item_id : String) (db : Except DBError Collection) :
    Except DBError HResp :=
  match db with
  | .error e => .error e
  | .ok coll =>
    match Crud.read_item item_id coll with
    | none => .ok (.empty 404)
    | some it => .ok (.item 200 it)

/-- Handler for `GET /items/` with query parameters `skip` (default 0) and `limit`
(default 100): returns the repository list (route `status_code=200`). -/
def get_all_items (skip limit : Int) (db : Except DBError Collection) :
    Except DBError HResp :=
  match db with
  | .error e => .error e
  | .ok coll =>
    match Crud.get_all_items skip limit coll with
    | .error e => .error e
    | .ok items => .ok (.list 200 items)

/-- Handler for `POST /items`: `create_item` and return it (route
`status_code=201`). -/
def post_item (item : ItemBase) (r : Nat) (db : Except DBError Collection) :
    Except DBError (HResp × Collection) :=
  match db with
  | .error e => .error e
  | .ok coll =>
    match Crud.create_item item r coll with
    | .error e => .error e
    | .ok (it, coll') => .ok (.item 201 it, coll')

/-- Handler for `PUT /items/{item_id}`: `read_item` first — bare 404 if absent; then
`update_item` — bare 304 if it returns `None`, else the updated item
(route `status_code=200`). -/
def update_item (item_id : String) (item : ItemBase)
    (db : Except DBError Collection) : Except DBError (HResp × Collection) :=
  match db with
  | .error e => .error e
  | .ok coll =>
    match Crud.read_item item_id coll with
    | none => .ok (.empty 404, coll)
    | some _ =>
      match Crud.update_item item_id item coll with
      | (none, coll') => .ok (.empty 304, coll')
      | (some updated, coll') => .ok (.item 200 updated, coll')

/-- Handler for `DELETE /items/{item_id}`: `delete_item`; bare 404 when
`deleted_count == 0`, bare 204 otherwise. -/
def delete_item (item_id : String) (db : Except DBError Collection) :
    Except DBError (HResp × Collection) :=
  match db with
  | .error e => .error e
  | .ok coll =>
    let r := Crud.delete_item item_id coll
    if r.1 = 0 then .ok (.empty 404, r.2) else .ok (.empty 204, r.2)

end Handler

/-- FastAPI validation of the `GET /items/` query parameters: the
handler declares `skip: int = 0, limit: int = 100` — plain `int`
annotations with no bounds (no `Query(ge=0)`) — so every pair of
integers is accepted as valid input. -/
def validate_get_all_params (skip limit : Int) : Option (Int × Int) :=
  some (skip, limit)

/-! ## Concrete data for the evaluation theorems -/

/-- An example payload: `{"name":"pen","description":"blue pen","price":2}`. -/
def penBase : ItemBase := ⟨"pen", "blue pen", 2⟩

/-- A second payload with different field values. -/
def pencilBase : ItemBase := ⟨"pencil", "green pencil", 3⟩

/-- A stored document with `_id = "id1"` and the pen fields. -/
def penItem : Item := ⟨penBase, "id1"⟩

/-! ## Basic lemmas -/

theorem toHexChars_length (n w : Nat) : (toHexChars n w).length = w := by
  induction w generalizing n with
  | zero => rfl
  | succ w ih => simp [toHexChars, ih]

theorem uuid4Chars_length (n : Nat) : (uuid4Chars n).length = 36 := by
  simp [uuid4Chars, toHexChars_length]

theorem uuid4String_ne_empty (r : Nat) : uuid4String r ≠ "" := by
  intro h
  have hdata : uuid4Chars (r % 2 ^ 128) = [] := congrArg String.data h
  have := uuid4Chars_length (r % 2 ^ 128)
  rw [hdata] at this
  simp at this

/-- If no element of `l` satisfies `p` but `d` does, then `find?` on
`l ++ [d]` returns `d`. -/
theorem find?_append_last {p : Document → Bool} {l : Collection}
    (h : l.any p = false) {d : Document} (hd : p d = true) :
    (l ++ [d]).find? p = some d := by
  induction l with
  | nil => simp [List.find?_cons, hd]
  | cons a t ih =>
    rw [List.any_cons, Bool.or_eq_false_iff] at h
    rw [List.cons_append, List.find?_cons, h.1]
    exact ih h.2

/-! ## Claim theorems -/

/-- C4: for every `GET /items/{id}` request, if an item with that id
exists in the collection the handler returns 200 with that item, and
otherwise it returns a bare 404. -/
theorem get_item_spec (item_id : String) (coll : Collection) :
    ((∃ d ∈ coll, d.id = item_id) →
      ∃ d ∈ coll, d.id = item_id ∧
        Handler.get_item item_id (.ok coll) = .ok (HResp.item 200 d)) ∧
    ((¬ ∃ d ∈ coll, d.id = item_id) →
      Handler.get_item item_id (.ok coll) = .ok (HResp.empty 404)) := by
  constructor
  · intro hex
    have hsome : (coll.find? (fun d => d.id == item_id)).isSome := by
      rw [List.find?_isSome]
      obtain ⟨d, hmem, hid⟩ := hex
      exact ⟨d, hmem, by simp [hid]⟩
    obtain ⟨d, hd⟩ := Option.isSome_iff_exists.mp hsome
    refine ⟨d, List.mem_of_find?_eq_some hd, ?_, ?_⟩
    · have := List.find?_some hd
      simpa using this
    · simp [Handler.get_item, Crud.read_item, find_one, hd]
  · intro hnone
    have hfind : coll.find? (fun d => d.id == item_id) = none := by
      rw [List.find?_eq_none]
      intro x hx
      simp only [beq_iff_eq]
      exact fun hid => hnone ⟨x, hx, hid⟩
    simp [Handler.get_item, Crud.read_item, find_one, hfind]

/-- C4 witness: on a singleton collection holding `penItem` with id
`"id1"`, get-one returns 200 with `penItem`; on the empty collection it
returns 404. -/
theorem get_item_spec_witness :
    (∃ d ∈ [penItem], d.id = "id1" ∧
      Handler.get_item "id1" (.ok [penItem]) = .ok (HResp.item 200 d)) ∧
    Handler.get_item "id1" (.ok ([] : Collection)) = .ok (HResp.empty 404) :=
  ⟨(get_item_spec "id1" [penItem]).1 ⟨penItem, by simp, rfl⟩,
   (get_item_spec "id1" ([] : Collection)).2 (by simp)⟩

/-- C2: for `PUT /items/{id}`: if no document with that id exists the
handler returns a bare 404; if one exists and the store reports
`modified_count = 0` the handler returns a bare 304 (pass-through of the
store's modified count); if the store reports a modification the handler
returns 200 with the updated item built from the request. -/
theorem update_item_spec (item_id : String) (it : ItemBase) (coll : Collection) :
    (find_one item_id coll = none →
      Handler.update_item item_id it (.ok coll) = .ok (HResp.empty 404, coll)) ∧
    (find_one item_id coll ≠ none → (update_one item_id it coll).1 = 0 →
      Handler.update_item item_id it (.ok coll) =
        .ok (HResp.empty 304, (update_one item_id it coll).2)) ∧
    (find_one item_id coll ≠ none → (update_one item_id it coll).1 ≠ 0 →
      Handler.update_item item_id it (.ok coll) =
        .ok (HResp.item 200 ⟨it, item_id⟩, (update_one item_id it coll).2)) := by
  refine ⟨?_, ?_, ?_⟩
  · intro h
    simp [Handler.update_item, Crud.read_item, h]
  · intro hfind hcnt
    obtain ⟨d, hd⟩ := Option.ne_none_iff_exists'.mp hfind
    simp [Handler.update_item, Crud.read_item, hd, Crud.update_item, hcnt]
  · intro hfind hcnt
    obtain ⟨d, hd⟩ := Option.ne_none_iff_exists'.mp hfind
    simp [Handler.update_item, Crud.read_item, hd, Crud.update_item, hcnt]

/-- C2 witness: updating the missing id `"nope"` on the empty
collection yields 404; updating `"id1"` with identical fields yields 304;
updating `"id1"` with changed fields yields 200 with the updated item. -/
theorem update_item_spec_witness :
    Handler.update_item "nope" penBase (.ok ([] : Collection)) =
      .ok (HResp.empty 404, ([] : Collection)) ∧
    Handler.update_item "id1" penBase (.ok [penItem]) =
      .ok (HResp.empty 304, (update_one "id1" penBase [penItem]).2) ∧
    Handler.update_item "id1" pencilBase (.ok [penItem]) =
      .ok (HResp.item 200 ⟨pencilBase, "id1"⟩,
        (update_one "id1" pencilBase [penItem]).2) :=
  ⟨(update_item_spec "nope" penBase ([] : Collection)).1 rfl,
   (update_item_spec "id1" penBase [penItem]).2.1 (by decide) (by decide),
   (update_item_spec "id1" pencilBase [penItem]).2.2 (by decide) (by decide)⟩

/-- C10: an update whose id matches no stored document returns 404
from the existence check before any write is issued, so the collection
it leaves behind is exactly the one it started from. -/
theorem update_404_no_write (item_id : String) (it : ItemBase)
    (coll : Collection) (h : find_one item_id coll = none) :
    Handler.update_item item_id it (.ok coll) = .ok (HResp.empty 404, coll) := by
  simp [Handler.update_item, Crud.read_item, h]

/-- C10 witness: updating `"ghost"` on a singleton collection that
does not contain it returns 404 and leaves the collection unchanged. -/
theorem update_404_no_write_witness :
    Handler.update_item "ghost" pencilBase (.ok [penItem]) =
      .ok (HResp.empty 404, [penItem]) :=
  update_404_no_write "ghost" pencilBase [penItem] (by decide)

/-- C3: for `DELETE /items/{id}`: every document whose id matches is
deleted, the handler returns 404 exactly when the deleted count is zero
and a bare 204 otherwise, and a subsequent get-by-id on that id returns
404. -/
theorem delete_item_spec (item_id : String) (coll : Collection) :
    ((delete_many item_id coll).1 = 0 ↔
      Handler.delete_item item_id (.ok coll) =
        .ok (HResp.empty 404, (delete_many item_id coll).2)) ∧
    ((delete_many item_id coll).1 ≠ 0 →
      Handler.delete_item item_id (.ok coll) =
        .ok (HResp.empty 204, (delete_many item_id coll).2)) ∧
    (∀ d ∈ (delete_many item_id coll).2, ¬ d.id = item_id) ∧
    Handler.get_item item_id (.ok (delete_many item_id coll).2) =
      .ok (HResp.empty 404) := by
  have hmem : ∀ d ∈ (delete_many item_id coll).2, ¬ d.id = item_id := by
    intro d hd
    rw [delete_many] at hd
    have := (List.mem_filter.mp hd).2
    simpa using this
  have hfind : find_one item_id (delete_many item_id coll).2 = none := by
    rw [find_one, List.find?_eq_none]
    intro x hx
    simpa using hmem x hx
  refine ⟨⟨?_, ?_⟩, ?_, hmem, ?_⟩
  · intro hz
    simp [Handler.delete_item, Crud.delete_item, hz]
  · intro hresp
    by_contra hz
    have h204 : Handler.delete_item item_id (.ok coll) =
        .ok (HResp.empty 204, (delete_many item_id coll).2) := by
      simp [Handler.delete_item, Crud.delete_item, hz]
    rw [hresp] at h204
    simp at h204
  · intro hz
    simp [Handler.delete_item, Crud.delete_item, hz]
  · simp [Handler.get_item, Crud.read_item, hfind]

/-- C3 witness: deleting `"id1"` from the singleton collection
deletes the document, returns 204, and a following get-by-id returns
404; deleting from the empty collection returns 404. -/
theorem delete_item_spec_witness :
    Handler.delete_item "id1" (.ok [penItem]) =
      .ok (HResp.empty 204, (delete_many "id1" [penItem]).2) ∧
    Handler.get_item "id1" (.ok (delete_many "id1" [penItem]).2) =
      .ok (HResp.empty 404) ∧
    Handler.delete_item "id1" (.ok ([] : Collection)) =
      .ok (HResp.empty 404, (delete_many "id1" ([] : Collection)).2) :=
  ⟨(delete_item_spec "id1" [penItem]).2.1 (by decide),
   (delete_item_spec "id1" [penItem]).2.2.2,
   (delete_item_spec "id1" ([] : Collection)).1.mp (by decide)⟩

/-- C5: for `GET /items/` with non-negative `skip` and `limit`, the
handler returns 200 with the collection's natural order after dropping
`skip` documents, truncated to at most `limit`; with the defaults
`skip = 0, limit = 100` on the empty collection the result is the empty
list. -/
theorem get_all_items_spec (skip limit : Int) (coll : Collection) :
    (0 ≤ skip → 0 ≤ limit →
      Handler.get_all_items skip limit (.ok coll) =
        .ok (HResp.list 200 ((coll.drop skip.toNat).take limit.toNat))) ∧
    Handler.get_all_items 0 100 (.ok ([] : Collection)) =
      .ok (HResp.list 200 []) := by
  constructor
  · intro hs hl
    have hs' : ¬ skip < 0 := Int.not_lt.mpr hs
    have hl' : ¬ limit < 0 := Int.not_lt.mpr hl
    simp [Handler.get_all_items, Crud.get_all_items, find_skip_to_list, hs', hl']
  · rfl

/-- C5 witness: on a singleton collection with `skip = 0` and
`limit = 100` the handler returns 200 with that single document. -/
theorem get_all_items_spec_witness :
    Handler.get_all_items 0 100 (.ok [penItem]) =
      .ok (HResp.list 200 ((([penItem] : Collection).drop (0 : Int).toNat).take
        (100 : Int).toNat)) :=
  (get_all_items_spec 0 100 [penItem]).1 (by decide) (by decide)

/-- C6: the `$set` replacement document carries only the non-id
fields, so a matched document keeps its `_id`, and the repository update
leaves every document's id — and their order — unchanged. -/
theorem update_preserves_ids (item_id : String) (it : ItemBase)
    (coll : Collection) (d : Document) :
    (applySet it d).id = d.id ∧
    ((Crud.update_item item_id it coll).2).map Item.id = coll.map Item.id := by
  refine ⟨rfl, ?_⟩
  have key : ∀ l : Collection,
      ((update_one item_id it l).2).map Item.id = l.map Item.id := by
    intro l
    induction l with
    | nil => rfl
    | cons a t ih =>
      by_cases ha : (a.id == item_id) = true
      · simp [update_one, ha, applySet]
      · simp [update_one, ha, ih]
  rw [Crud.update_item]
  by_cases hz : (update_one item_id it coll).1 = 0
  · simp [hz, key]
  · simp [hz, key]

/-- C8: none of the five operations catches a database error: a
raised driver exception propagates out of the handler unchanged, and no
response is produced in its place. -/
theorem db_error_propagates (e : DBError) (item_id : String) (it : ItemBase)
    (r : Nat) (skip limit : Int) :
    Handler.get_item item_id (.error e) = .error e ∧
    Handler.get_all_items skip limit (.error e) = .error e ∧
    Handler.post_item it r (.error e) = .error e ∧
    Handler.update_item item_id it (.error e) = .error e ∧
    Handler.delete_item item_id (.error e) = .error e :=
  ⟨rfl, rfl, rfl, rfl, rfl⟩

/-- C7 counterexample: the get-all handler's validation accepts
`skip = -1, limit = 100` — a negative skip is accepted as valid input,
contradicting the claim that accepted parameters are non-negative. -/
theorem get_all_accepts_negative_params :
    validate_get_all_params (-1) 100 = some (-1, 100) ∧ (-1 : Int) < 0 :=
  ⟨rfl, by decide⟩

/-- C7 amended: `skip` and `limit` are declared as plain integers
with no bounds, so every integer pair — negative values included — is
accepted as valid input; a negative value then makes the driver raise
inside the repository call, so the request fails with an unhandled error
rather than being rejected at validation. -/
theorem get_all_params_unconstrained (skip limit : Int) (coll : Collection) :
    validate_get_all_params skip limit = some (skip, limit) ∧
    (skip < 0 →
      Handler.get_all_items skip limit (.ok coll) = .error .negativeSkip) ∧
    (0 ≤ skip → limit < 0 →
      Handler.get_all_items skip limit (.ok coll) = .error .negativeLimit) := by
  refine ⟨rfl, ?_, ?_⟩
  · intro hs
    simp [Handler.get_all_items, Crud.get_all_items, find_skip_to_list, hs]
  · intro hs hl
    have hs' : ¬ skip < 0 := Int.not_lt.mpr hs
    simp [Handler.get_all_items, Crud.get_all_items, find_skip_to_list, hs', hl]

/-- C7 amended witness: `skip = -1` is accepted by validation and the
request then fails with the driver's negative-skip error. -/
theorem get_all_params_unconstrained_witness :
    validate_get_all_params (-1) 100 = some (-1, 100) ∧
    Handler.get_all_items (-1) 100 (.ok ([] : Collection)) =
      .error .negativeSkip :=
  ⟨(get_all_params_unconstrained (-1) 100 ([] : Collection)).1,
   (get_all_params_unconstrained (-1) 100 ([] : Collection)).2.1 (by decide)⟩

/-- C1: every successful `POST /items` returns 201 with the full
item, whose generated id is non-empty and whose fields are the supplied
ones, and a subsequent get-by-id on the resulting collection returns 200
with that very item. -/
theorem create_then_read (it : ItemBase) (r : Nat) (coll : Collection)
    (out : HResp × Collection)
    (h : Handler.post_item it r (.ok coll) = .ok out) :
    ∃ created coll2,
      out = (HResp.item 201 created, coll2) ∧
      created.id ≠ "" ∧
      created.name = it.name ∧
      created.description = it.description ∧
      created.price = it.price ∧
      Handler.get_item created.id (.ok coll2) = .ok (HResp.item 200 created) := by
  by_cases hdup : coll.any (fun d => d.id == uuid4String r) = true
  · exfalso
    simp [Handler.post_item, Crud.create_item, insert_one, hdup] at h
  · simp only [Bool.not_eq_true] at hdup
    have hpost : Handler.post_item it r (.ok coll) =
        .ok (HResp.item 201 ⟨it, uuid4String r⟩,
          coll ++ [⟨it, uuid4String r⟩]) := by
      simp [Handler.post_item, Crud.create_item, insert_one, hdup]
    rw [hpost] at h
    have hout : out = (HResp.item 201 ⟨it, uuid4String r⟩,
        coll ++ [⟨it, uuid4String r⟩]) := (Except.ok.inj h).symm
    refine ⟨⟨it, uuid4String r⟩, coll ++ [⟨it, uuid4String r⟩], hout,
      uuid4String_ne_empty r, rfl, rfl, rfl, ?_⟩
    have hfind : (coll ++ [(⟨it, uuid4String r⟩ : Item)]).find?
        (fun d => d.id == uuid4String r) = some ⟨it, uuid4String r⟩ :=
      find?_append_last hdup (by simp)
    simp [Handler.get_item, Crud.read_item, find_one, hfind]

/-- C1 witness: posting the pen payload to the empty collection
(randomness 0) returns 201 with a non-empty id, and reading that id back
returns 200 with the identical item. -/
theorem create_then_read_witness :
    ∃ created coll2,
      ((HResp.item 201 (⟨penBase, uuid4String 0⟩ : Item),
        ([(⟨penBase, uuid4String 0⟩ : Item)] : Collection)) : HResp × Collection) =
          (HResp.item 201 created, coll2) ∧
      created.id ≠ "" ∧
      created.name = penBase.name ∧
      created.description = penBase.description ∧
      created.price = penBase.price ∧
      Handler.get_item created.id (.ok coll2) = .ok (HResp.item 200 created) :=
  create_then_read penBase 0 [] _ rfl

/-- C9: every 200 response of the update handler carries a body built
from the request itself — the id from the path parameter and the three
fields from the request body — not an item re-read from the store. -/
theorem update_response_from_request (item_id : String) (it : ItemBase)
    (coll : Collection) (st : Nat) (body : Item) (coll2 : Collection)
    (h : Handler.update_item item_id it (.ok coll) =
      .ok (HResp.item st body, coll2)) :
    st = 200 ∧ body = ⟨it, item_id⟩ := by
  by_cases hf : find_one item_id coll = none
  · simp [Handler.update_item, Crud.read_item, hf] at h
  · obtain ⟨d, hd⟩ := Option.ne_none_iff_exists'.mp hf
    by_cases hz : (update_one item_id it coll).1 = 0
    · simp [Handler.update_item, Crud.read_item, hd, Crud.update_item, hz] at h
    · simp [Handler.update_item, Crud.read_item, hd, Crud.update_item, hz] at h
      exact ⟨h.1.1.symm, h.1.2.symm⟩

/-- C9 witness: the 200 response for updating `"id1"` with the pencil
payload carries exactly the request-derived item. -/
theorem update_response_from_request_witness :
    (200 : Nat) = 200 ∧ (⟨pencilBase, "id1"⟩ : Item) = ⟨pencilBase, "id1"⟩ :=
  update_response_from_request "id1" pencilBase [penItem] 200
    ⟨pencilBase, "id1"⟩ (update_one "id1" pencilBase [penItem]).2 rfl

end ItemApp
